import Mathlib

/- Verification development for the techigurulms course platform
   (frontend course components). The definitions below are a shallow
   embedding of the TypeScript source under
   src/frontend/src/components/Course/: the curriculum data model and
   utility functions of CourseDetail.tsx, the navigation state machine of
   useCourseLogic, the quiz answer/submission state of QuizModule, and the
   search/fetch state of useArchivedCourses (InactiveCourses.tsx).
   JavaScript numbers that are only ever whole nonnegative second counts,
   indices or lengths are embedded as Nat; optional fields as Option;
   JavaScript objects Record<number, T> as functions Nat -> Option T or
   Nat -> Bool; the ES Set<string> of expanded section ids as a
   Finset String. -/

namespace LMS

/- Curriculum model, from the interfaces at the top of CourseDetail.tsx. -/

structure Resource where
  _id : Option String
  title : String
  url : String
deriving DecidableEq

structure CodeSnippet where
  _id : Option String
  language : String
  code : String
deriving DecidableEq

structure QuizOption where
  _id : Option String
  text : String
  isCorrect : Bool
deriving DecidableEq

structure Quiz where
  _id : Option String
  question : String
  options : List QuizOption
deriving DecidableEq

/-- Lesson record from CourseDetail.tsx. The optional arrays
(resources, codeSnippets, quizzes) are embedded as plain lists: an absent
array and an empty array behave identically in every use site
(length checks and mapping). -/
structure Lesson where
  _id : String
  title : String
  videoKey : Option String
  videoDuration : Nat
  isFree : Bool
  description : Option String
  resources : List Resource
  codeSnippets : List CodeSnippet
  quizzes : List Quiz
deriving DecidableEq

structure Section where
  _id : String
  title : String
  lessons : List Lesson
deriving DecidableEq

structure Course where
  _id : String
  title : String
  description : String
  sections : List Section
  updatedAt : String
deriving DecidableEq

/- Derivation layer, from CourseDetail.tsx. -/

/-- Embedding of `formatDuration` (CourseDetail.tsx lines 51-58):
`if (!seconds) return '0m'` with a nonnegative whole-second count is a
zero test; `Math.floor` on nonnegative division is Nat division; the
template literals concatenate the decimal renderings. -/
def formatDuration (seconds : Nat) : String :=
  if seconds = 0 then "0m"
  else
    let h := seconds / 3600
    let m := seconds % 3600 / 60
    let s := seconds % 60
    if h > 0 then toString h ++ "h " ++ toString m ++ "m"
    else toString m ++ "m " ++ toString s ++ "s"

/-- Embedding of the per-lesson-sequence duration
(CourseDetail.tsx line 499):
`formatDuration(lessons.reduce((acc, l) => acc + (l.videoDuration || 0), 0))`;
`|| 0` is the identity here since `videoDuration` is a required
nonnegative field of the embedded Lesson. -/
def totalDuration (lessons : List Lesson) : String :=
  formatDuration (lessons.foldl (fun acc l => acc + l.videoDuration) 0)

/-- Embedding of the lesson-count derivation
(CourseDetail.tsx line 483):
`course.sections?.reduce((acc, s) => acc + s.lessons.length, 0)`. -/
def lessonCount (c : Course) : Nat :=
  c.sections.foldl (fun acc s => acc + s.lessons.length) 0

/- Navigation state machine, from useCourseLogic in CourseDetail.tsx. -/

/-- Navigation state: `activeLesson` and `expandedSections` of
useCourseLogic. The source stores the whole Lesson object in
`activeLesson` and a `Set<string>` of section ids. -/
structure NavState where
  activeLesson : Option Lesson
  expandedSections : Finset String
deriving DecidableEq

/-- Embedding of the initialization on successful load
(CourseDetail.tsx lines 82-94): starting from the initial state
(`null` active lesson, empty set), when `sections.length > 0` the first
section's id is put in the expanded set and, when that section has
lessons, its first lesson becomes active. -/
def initNav (c : Course) : NavState :=
  match c.sections with
  | [] => { activeLesson := none, expandedSections := ∅ }
  | first :: _ =>
    { activeLesson := first.lessons.head?
      expandedSections := {first._id} }

/-- Embedding of `toggleSection` (CourseDetail.tsx lines 105-112):
delete the id when present, add it otherwise. -/
def toggleSection (sectionId : String) (expanded : Finset String) : Finset String :=
  if sectionId ∈ expanded then expanded.erase sectionId
  else insert sectionId expanded

/- Quiz assessment engine, from QuizModule in CourseDetail.tsx. -/

/-- Quiz state of QuizModule (CourseDetail.tsx lines 187-188):
`answers: Record<number, number>` and `submitted: Record<number, boolean>`,
embedded as total functions with the JavaScript absent-key defaults
(undefined, i.e. none / false). -/
structure QuizState where
  answers : Nat → Option Nat
  submitted : Nat → Bool

/-- Fresh quiz state produced by the useState initializers
(`{}` for both records). -/
def freshQuizState : QuizState :=
  { answers := fun _ => none, submitted := fun _ => false }

/-- Embedding of `handleSelect` (CourseDetail.tsx lines 190-192):
`if (!submitted[qIdx]) setAnswers(prev => ({ ...prev, [qIdx]: oIdx }))`.
The option buttons are also `disabled={isSub}`, which enforces the same
guard at the DOM level. -/
def handleSelect (qIdx oIdx : Nat) (st : QuizState) : QuizState :=
  if st.submitted qIdx then st
  else { st with answers := fun i => if i = qIdx then some oIdx else st.answers i }

/-- Embedding of the submit button (CourseDetail.tsx lines 236-246):
the button is rendered only when the question is not yet submitted
(`!isSub`), is `disabled={selected === undefined}`, and on click runs
`setSubmitted(prev => ({ ...prev, [qIdx]: true }))`. A submit event can
therefore only change state when an answer is recorded and the question
is not yet submitted. -/
def submitAnswer (qIdx : Nat) (st : QuizState) : QuizState :=
  if st.submitted qIdx then st
  else if (st.answers qIdx).isSome then
    { st with submitted := fun i => if i = qIdx then true else st.submitted i }
  else st

/-- User-driven quiz events of QuizModule. -/
inductive QuizEvent where
  | select (qIdx oIdx : Nat)
  | submit (qIdx : Nat)

/-- One quiz event applied to the quiz state. -/
def quizStep (e : QuizEvent) (st : QuizState) : QuizState :=
  match e with
  | .select q o => handleSelect q o st
  | .submit q => submitAnswer q st

/-- A sequence of quiz events applied in dispatch order. -/
def runQuiz (events : List QuizEvent) (st : QuizState) : QuizState :=
  events.foldl (fun s e => quizStep e s) st

/-- Embedding of the grading expression (CourseDetail.tsx lines 202-204):
`const selected = answers[qIdx]; const isSub = submitted[qIdx];
isSub && quiz.options[selected]?.isCorrect`. An absent answer or an
out-of-range index makes `quiz.options[selected]?.isCorrect` undefined,
and `true && undefined` is falsy, embedded as `false`. -/
def gradeQuestion (quiz : Quiz) (st : QuizState) (q : Nat) : Bool :=
  st.submitted q &&
    (match st.answers q with
     | some sel =>
       match quiz.options[sel]? with
       | some opt => opt.isCorrect
       | none => false
     | none => false)

/- Lesson-view session model, from CourseDetail (lines 451-453 together
   with QuizModule's useState). -/

/-- View state of the course page as far as the quiz module is concerned:
the active lesson plus the quiz module's component state when it is
mounted. CourseDetail.tsx line 451-453 renders
`<QuizModule quizzes={activeLesson.quizzes} />` without a `key` prop,
guarded by `activeLesson?.quizzes && activeLesson.quizzes.length > 0`.
Per React reconciliation, an element of the same component type at the
same tree position without a key keeps its component instance across
re-renders, and `useState` initializers run only when the instance
mounts; so the quiz state survives a re-render as long as the guard stays
true, and is rebuilt fresh only when the module unmounts (guard false)
and later mounts again. `quizModule = none` means the module is not
mounted. -/
structure ViewState where
  activeLesson : Option Lesson
  quizModule : Option QuizState

/-- Initial view state after a successful course load: the navigation
initialization picks the active lesson, and the quiz module mounts
exactly when that lesson has a nonempty quiz list. -/
def viewLoad (c : Course) : ViewState :=
  let nav := initNav c
  { activeLesson := nav.activeLesson
    quizModule :=
      match nav.activeLesson with
      | some l => if l.quizzes.isEmpty then none else some freshQuizState
      | none => none }

/-- Embedding of a SelectLesson transition as it affects the quiz module
(CourseDetail.tsx `selectLesson`, lines 114-117, plus the render guard at
lines 451-453): the active lesson is replaced; if the new lesson has no
quizzes the module unmounts (state destroyed); if it has quizzes and the
module was already mounted, React keeps the same instance and therefore
the same state; only if it was unmounted does a fresh instance mount. -/
def viewSelectLesson (st : ViewState) (l : Lesson) : ViewState :=
  { activeLesson := some l
    quizModule :=
      if l.quizzes.isEmpty then none
      else
        match st.quizModule with
        | some qs => some qs
        | none => some freshQuizState }

/-- A quiz event delivered to the mounted quiz module (no-op when the
module is not mounted, since its buttons then do not exist). -/
def viewQuizStep (e : QuizEvent) (st : ViewState) : ViewState :=
  { st with quizModule := st.quizModule.map (quizStep e) }

/- Search/fetch cycle, from useArchivedCourses in InactiveCourses.tsx. -/

/-- Thumbnail field of the listing Course interface:
`{ url: string } | string`. -/
inductive Thumbnail where
  | plain (url : String)
  | wrapped (url : String)
deriving DecidableEq

/-- Listing-side Section interface (InactiveCourses.tsx line 8):
`{ lessons: any[] }` — only the length of the array is ever used, so the
element type is embedded as Unit. -/
structure ListingSection where
  lessons : List Unit
deriving DecidableEq

/-- Listing-side Course interface (InactiveCourses.tsx lines 9-18). The
`rating`/`price` numbers are embedded as Nat; no modeled claim computes
with them. -/
structure ListingCourse where
  _id : String
  title : String
  category : String
  studentsEnrolled : Nat
  rating : Nat
  price : Nat
  thumbnail : Thumbnail
  sections : List ListingSection
deriving DecidableEq

/-- Listing-side lesson total (InactiveCourses.tsx line 63 and
ActivrCourse.tsx line 48):
`course.sections?.reduce((acc, sec) => acc + sec.lessons.length, 0) || 0`;
`|| 0` is the identity on the embedded Nat result and absent `sections`
is the empty list. -/
def listingTotalLessons (c : ListingCourse) : Nat :=
  c.sections.foldl (fun acc s => acc + s.lessons.length) 0

/-- State of the useArchivedCourses hook that the fetch cycle touches:
`courses`, `loading`, `error`, `isFiltering`. -/
structure FetchState where
  courses : List ListingCourse
  loading : Bool
  error : Option String
  isFiltering : Bool
deriving DecidableEq

/-- Initial hook state: `useState<Course[]>([])`, `useState(true)`,
`useState<string | null>(null)`, `useState(false)`. -/
def fetchStateStart : FetchState :=
  { courses := [], loading := true, error := none, isFiltering := false }

/-- Outcome of one awaited request: either the `data.courses` payload or
a failure carrying the optional `err.response?.data?.message`. -/
inductive FetchResult where
  | success (courses : List ListingCourse)
  | failure (message : Option String)

/-- The generic fallback message of the catch branch
(InactiveCourses.tsx line 35). -/
def archiveFallbackMessage : String := "Failed to load archived courses"

/-- Embedding of `err.response?.data?.message || 'Failed to load archived
courses'`: a missing message, like any falsy one (the empty string),
falls back to the generic text. -/
def archiveErrorMessage (m : Option String) : String :=
  match m with
  | some s => if s = "" then archiveFallbackMessage else s
  | none => archiveFallbackMessage

/-- Embedding of the synchronous prefix of `fetchArchivedCourses`
(InactiveCourses.tsx lines 28-30): issuing a request sets
`loading := true`; the keyword only parametrizes the request URL and does
not touch hook state. -/
def issueFetch (keyword : String) (st : FetchState) : FetchState :=
  let _ := keyword
  { st with loading := true }

/-- Embedding of the continuation of `fetchArchivedCourses` that runs
when its response arrives (InactiveCourses.tsx lines 31-39): on success
`setCourses(data.courses); setError(null)`; on failure
`setError(err.response?.data?.message || ...)` leaving `courses`
untouched; the `finally` block clears `loading` and `isFiltering`.
There is no request sequence number or staleness check: every arriving
response is applied unconditionally, whichever request it answers. -/
def resolveFetch (st : FetchState) (r : FetchResult) : FetchState :=
  match r with
  | .success cs =>
    { st with courses := cs, error := none, loading := false, isFiltering := false }
  | .failure m =>
    { st with error := some (archiveErrorMessage m), loading := false, isFiltering := false }

/- Concrete inputs used to instantiate the theorems below. -/

/-- Payload answering the keyword "go" search. -/
def goCourses : List ListingCourse :=
  [{ _id := "go1", title := "Go Basics", category := "prog", studentsEnrolled := 3,
     rating := 4, price := 0, thumbnail := .plain "g.png", sections := [] }]

/-- Payload answering the keyword "rust" search. -/
def rustCourses : List ListingCourse :=
  [{ _id := "rust1", title := "Rust Basics", category := "prog", studentsEnrolled := 5,
     rating := 5, price := 0, thumbnail := .plain "r.png", sections := [] }]

/-- Fetch-cycle state after the interleaving of the spec's scenario: issue
"go", issue "rust", the "rust" response resolves first, then the stale
"go" response resolves. -/
def racedFetchState : FetchState :=
  resolveFetch
    (resolveFetch (issueFetch "rust" (issueFetch "go" fetchStateStart))
      (.success rustCourses))
    (.success goCourses)

/-- Quiz with two options flagged correct (the ill-formed case of the
spec's invariant). -/
def twoCorrectQuiz : Quiz :=
  { _id := none, question := "pick one",
    options := [{ _id := none, text := "A", isCorrect := true },
                { _id := none, text := "B", isCorrect := true }] }

/-- The second option of `twoCorrectQuiz`. -/
def optionB : QuizOption := { _id := none, text := "B", isCorrect := true }

/-- Quiz state in which question 0 selected option 1 and was submitted. -/
def secondOptionState : QuizState :=
  submitAnswer 0 (handleSelect 0 1 freshQuizState)

/-- Quiz state in which question 0 selected option 2 and was submitted. -/
def lockedState : QuizState :=
  submitAnswer 0 (handleSelect 0 2 freshQuizState)

/-- Quiz state in which question 0 recorded the out-of-range option index
5 and was submitted. -/
def outOfRangeState : QuizState :=
  submitAnswer 0 (handleSelect 0 5 freshQuizState)

/-- Quiz with a single option. -/
def oneOptionQuiz : Quiz :=
  { _id := none, question := "solo",
    options := [{ _id := none, text := "only", isCorrect := true }] }

/-- Quiz belonging to the first example lesson. -/
def quizOne : Quiz :=
  { _id := none, question := "first lesson question",
    options := [{ _id := none, text := "yes", isCorrect := true },
                { _id := none, text := "no", isCorrect := false }] }

/-- Quiz belonging to the second example lesson. -/
def quizTwo : Quiz :=
  { _id := none, question := "second lesson question",
    options := [{ _id := none, text := "left", isCorrect := false },
                { _id := none, text := "right", isCorrect := true }] }

/-- First quiz-bearing lesson of the lesson-switch scenario. -/
def lessonOne : Lesson :=
  { _id := "L1", title := "Lesson One", videoKey := none, videoDuration := 60,
    isFree := true, description := none, resources := [], codeSnippets := [],
    quizzes := [quizOne] }

/-- Second quiz-bearing lesson of the lesson-switch scenario. -/
def lessonTwo : Lesson :=
  { _id := "L2", title := "Lesson Two", videoKey := none, videoDuration := 90,
    isFree := true, description := none, resources := [], codeSnippets := [],
    quizzes := [quizTwo] }

/-- Course whose single section carries the two quiz-bearing lessons. -/
def twoQuizCourse : Course :=
  { _id := "CQ", title := "Quiz Course", description := "d",
    sections := [{ _id := "S1", title := "Section One",
                   lessons := [lessonOne, lessonTwo] }],
    updatedAt := "2024-01-01" }

/-- View state after loading `twoQuizCourse`, answering option 0 of
question 0 on the first lesson's quiz, then selecting the second
lesson. -/
def lessonSwitchTrace : ViewState :=
  viewSelectLesson (viewQuizStep (.select 0 0) (viewLoad twoQuizCourse)) lessonTwo

/-- Plain lesson without features, first in the navigation example. -/
def lessonL1 : Lesson :=
  { _id := "NL1", title := "Intro", videoKey := none, videoDuration := 120,
    isFree := true, description := none, resources := [], codeSnippets := [],
    quizzes := [] }

/-- Plain lesson without features, second in the navigation example. -/
def lessonL2 : Lesson :=
  { _id := "NL2", title := "Next", videoKey := none, videoDuration := 240,
    isFree := false, description := none, resources := [], codeSnippets := [],
    quizzes := [] }

/-- Section A of the navigation example, with lessons [L1, L2]. -/
def sectionA : Section := { _id := "A", title := "Alpha", lessons := [lessonL1, lessonL2] }

/-- Section B of the navigation example, with no lessons. -/
def sectionB : Section := { _id := "B", title := "Beta", lessons := [] }

/-- Course of the spec's navigation example: sections [A, B]. -/
def courseAB : Course :=
  { _id := "CAB", title := "Demo", description := "d",
    sections := [sectionA, sectionB], updatedAt := "2024-01-01" }

/-- Lesson of 3661 seconds, the spec's duration example. -/
def lesson3661 : Lesson :=
  { _id := "L3661", title := "Long", videoKey := none, videoDuration := 3661,
    isFree := true, description := none, resources := [], codeSnippets := [],
    quizzes := [] }

/-- Course with no sections. -/
def emptyCourse : Course :=
  { _id := "CE", title := "Empty", description := "d", sections := [],
    updatedAt := "2024-01-01" }

/- Helper lemmas shared by the claim theorems. -/

/-- The left fold accumulating section lesson-lengths equals the starting
value plus the sum of the mapped lengths. -/
theorem foldl_section_lessons (l : List Section) :
    ∀ n : Nat, l.foldl (fun acc s => acc + s.lessons.length) n
      = n + (l.map fun s => s.lessons.length).sum := by
  induction l with
  | nil => intro n; simp
  | cons a t ih => intro n; simp [List.foldl_cons, ih]; omega

/-- Listing-side version of the lesson-length fold identity. -/
theorem foldl_listing_lessons (l : List ListingSection) :
    ∀ n : Nat, l.foldl (fun acc s => acc + s.lessons.length) n
      = n + (l.map fun s => s.lessons.length).sum := by
  induction l with
  | nil => intro n; simp
  | cons a t ih => intro n; simp [List.foldl_cons, ih]; omega

/-- The left fold accumulating video durations equals the starting value
plus the sum of the mapped durations. -/
theorem foldl_video_duration (l : List Lesson) :
    ∀ n : Nat, l.foldl (fun acc x => acc + x.videoDuration) n
      = n + (l.map fun x => x.videoDuration).sum := by
  induction l with
  | nil => intro n; simp
  | cons a t ih => intro n; simp [List.foldl_cons, ih]; omega

/-- One quiz event keeps a submitted question submitted and leaves its
recorded answer unchanged. -/
theorem quizStep_keeps_locked (q : Nat) (e : QuizEvent) (st : QuizState)
    (h : st.submitted q = true) :
    (quizStep e st).submitted q = true ∧ (quizStep e st).answers q = st.answers q := by
  cases e with
  | select q' o =>
    simp only [quizStep, handleSelect]
    cases hq : st.submitted q' with
    | true => simp [h]
    | false =>
      have hne : q ≠ q' := by
        intro he; rw [he] at h; rw [h] at hq; exact Bool.true_eq_false.mp hq
      simp [h, hne]
  | submit q' =>
    simp only [quizStep, submitAnswer]
    cases hq : st.submitted q' with
    | true => simp [h]
    | false =>
      cases ha : (st.answers q').isSome with
      | true => simp [h]
      | false => simp [h]

/-- A whole event sequence keeps a submitted question submitted and
leaves its recorded answer unchanged. -/
theorem runQuiz_keeps_locked (q : Nat) :
    ∀ (events : List QuizEvent) (st : QuizState), st.submitted q = true →
      (runQuiz events st).submitted q = true ∧
      (runQuiz events st).answers q = st.answers q := by
  intro events
  induction events with
  | nil => intro st h; exact ⟨h, rfl⟩
  | cons e es ih =>
    intro st h
    have hstep := quizStep_keeps_locked q e st h
    have hrest := ih (quizStep e st) hstep.1
    exact ⟨hrest.1, hrest.2.trans hstep.2⟩

/- Claim theorems. -/

/-- C1 counterexample: issuing fetches for "go" then "rust" and letting
the "rust" response resolve first leaves `courses` reflecting the "go"
result, not the "rust" result — the claim that a superseded request never
clobbers a more recent successful result is false of the code. -/
theorem stale_response_clobbers_cex :
    racedFetchState.courses = goCourses ∧ racedFetchState.courses ≠ rustCourses := by
  refine ⟨rfl, ?_⟩
  decide

/-- C1 amended: every arriving response is applied unconditionally (the
code keeps no request sequence number), so whichever response resolves
last wins: with "go" issued before "rust" and "rust" resolving first, the
final `courses` state is the "go" payload. -/
theorem last_resolution_wins (st : FetchState) (kGo kRust : String)
    (goResult rustResult : List ListingCourse) :
    (resolveFetch
      (resolveFetch (issueFetch kRust (issueFetch kGo st)) (.success rustResult))
      (.success goResult)).courses = goResult := rfl

/-- C2 counterexample: in a quiz whose two options are both flagged
correct, selecting the second flagged option and submitting grades the
question as correct, contradicting the claim that every selected correct
option other than the first flagged one reports "incorrect". -/
theorem second_flagged_grades_correct_cex :
    twoCorrectQuiz.options.map QuizOption.isCorrect = [true, true] ∧
    secondOptionState.answers 0 = some 1 ∧
    secondOptionState.submitted 0 = true ∧
    gradeQuestion twoCorrectQuiz secondOptionState 0 = true := by
  refine ⟨rfl, ?_, ?_, ?_⟩ <;> decide

/-- C2 amended: grading a submitted question follows the selected
option's own correctness flag — selecting any flagged-correct option
grades as correct, regardless of whether an earlier option is also
flagged; there is no first-flagged-wins rule. -/
theorem grade_follows_selected_flag (quiz : Quiz) (st : QuizState) (q sel : Nat)
    (opt : QuizOption) (hsub : st.submitted q = true)
    (hans : st.answers q = some sel) (hopt : quiz.options[sel]? = some opt) :
    gradeQuestion quiz st q = opt.isCorrect := by
  simp [gradeQuestion, hsub, hans, hopt]

/-- C2 witness: the amended claim applied to the two-flagged quiz with
the second flagged option selected and submitted. -/
theorem grade_follows_selected_flag_witness :
    gradeQuestion twoCorrectQuiz secondOptionState 0 = optionB.isCorrect :=
  grade_follows_selected_flag twoCorrectQuiz secondOptionState 0 1 optionB
    (by decide) (by decide) (by decide)

/-- C3 evaluation at the failing input: after answering question 0 on the
first lesson's quiz and then selecting the second quiz-bearing lesson,
the quiz module still records answer 0 for question 0 (the component
instance is reused because `QuizModule` is rendered without a `key`),
whereas a fresh state would record none — the quiz state is not reset by
the lesson change. -/
theorem quizState_persists_across_lesson_switch :
    (viewLoad twoQuizCourse).activeLesson = some lessonOne ∧
    lessonSwitchTrace.activeLesson = some lessonTwo ∧
    (lessonSwitchTrace.quizModule.map fun qs => qs.answers 0) = some (some 0) ∧
    freshQuizState.answers 0 = none := by
  refine ⟨?_, ?_, ?_, rfl⟩ <;> decide

/-- C4: a submit event with no recorded answer leaves the state
unchanged; a select event for an already-submitted question is a no-op;
once a question is submitted, no later event sequence removes it from the
submitted set or changes its recorded answer. -/
theorem submitted_answer_locked (q : Nat) :
    (∀ st : QuizState, st.answers q = none → submitAnswer q st = st) ∧
    (∀ (st : QuizState) (o : Nat), st.submitted q = true → handleSelect q o st = st) ∧
    (∀ (st : QuizState) (events : List QuizEvent), st.submitted q = true →
      (runQuiz events st).submitted q = true ∧
      (runQuiz events st).answers q = st.answers q) := by
  refine ⟨?_, ?_, ?_⟩
  · intro st h
    simp [submitAnswer, h]
  · intro st o h
    simp [handleSelect, h]
  · intro st events h
    exact runQuiz_keeps_locked q events st h

/-- C4 witness: the locking theorem applied to a concrete state in which
question 0 selected option 2 and was submitted, against a later event
sequence that tries to re-select and to submit another question. -/
theorem submitted_answer_locked_witness :
    (runQuiz [QuizEvent.select 0 5, QuizEvent.submit 1] lockedState).submitted 0 = true ∧
    (runQuiz [QuizEvent.select 0 5, QuizEvent.submit 1] lockedState).answers 0
      = lockedState.answers 0 ∧
    handleSelect 0 7 lockedState = lockedState :=
  ⟨((submitted_answer_locked 0).2.2 lockedState
      [QuizEvent.select 0 5, QuizEvent.submit 1] (by decide)).1,
   ((submitted_answer_locked 0).2.2 lockedState
      [QuizEvent.select 0 5, QuizEvent.submit 1] (by decide)).2,
   (submitted_answer_locked 0).2.1 lockedState 7 (by decide)⟩

/-- C5: initializing navigation on a successfully loaded course expands
exactly the first section's id and activates its first lesson when it has
one; a course with no sections leaves both fields empty. -/
theorem initNav_spec (c : Course) :
    (c.sections = [] → initNav c = { activeLesson := none, expandedSections := ∅ }) ∧
    (∀ s rest, c.sections = s :: rest →
      (initNav c).expandedSections = {s._id} ∧
      (∀ l ls, s.lessons = l :: ls → (initNav c).activeLesson = some l) ∧
      (s.lessons = [] → (initNav c).activeLesson = none)) := by
  constructor
  · intro h
    simp [initNav, h]
  · intro s rest h
    refine ⟨?_, ?_, ?_⟩
    · simp [initNav, h]
    · intro l ls hl
      simp [initNav, h, hl]
    · intro hl
      simp [initNav, h, hl]

/-- C5 witness: the initialization theorem applied to the spec's example
course with sections [A, B], A carrying lessons [L1, L2]. -/
theorem initNav_spec_witness :
    (initNav courseAB).expandedSections = {sectionA._id} ∧
    (initNav courseAB).activeLesson = some lessonL1 :=
  ⟨((initNav_spec courseAB).2 sectionA [sectionB] rfl).1,
   ((initNav_spec courseAB).2 sectionA [sectionB] rfl).2.1 lessonL1 [lessonL2] rfl⟩

/-- C6: totalDuration sums the lessons' videoDuration seconds and formats
the sum as hours and minutes when the hour part is positive, else as
minutes and seconds, with a zero total formatting as "0m"; in particular
the empty list gives "0m" and a single 3661-second lesson gives
"1h 1m". -/
theorem totalDuration_spec :
    (∀ lessons : List Lesson,
      ((lessons.map fun l => l.videoDuration).sum = 0 → totalDuration lessons = "0m") ∧
      (0 < (lessons.map fun l => l.videoDuration).sum / 3600 →
        totalDuration lessons =
          toString ((lessons.map fun l => l.videoDuration).sum / 3600) ++ "h " ++
          toString ((lessons.map fun l => l.videoDuration).sum % 3600 / 60) ++ "m") ∧
      ((lessons.map fun l => l.videoDuration).sum ≠ 0 →
        (lessons.map fun l => l.videoDuration).sum / 3600 = 0 →
        totalDuration lessons =
          toString ((lessons.map fun l => l.videoDuration).sum % 3600 / 60) ++ "m " ++
          toString ((lessons.map fun l => l.videoDuration).sum % 60) ++ "s")) ∧
    totalDuration [] = "0m" ∧
    (∀ l : Lesson, l.videoDuration = 3661 → totalDuration [l] = "1h 1m") := by
  refine ⟨?_, rfl, ?_⟩
  · intro lessons
    have hf : totalDuration lessons
        = formatDuration (lessons.map fun l => l.videoDuration).sum := by
      unfold totalDuration
      rw [foldl_video_duration]
      simp
    refine ⟨?_, ?_, ?_⟩
    · intro h0
      rw [hf, h0]
      rfl
    · intro hh
      have hne : (lessons.map fun l => l.videoDuration).sum ≠ 0 := by
        intro h0
        rw [h0] at hh
        simp at hh
      rw [hf]
      unfold formatDuration
      simp [hne, hh]
    · intro hne hzero
      rw [hf]
      unfold formatDuration
      simp [hne, hzero]
  · intro l h
    have : totalDuration [l] = formatDuration 3661 := by
      simp [totalDuration, h]
    rw [this]
    decide

/-- C6 witness: the duration theorem applied to the 3661-second lesson,
together with the hypothesis-free empty-list conjunct. -/
theorem totalDuration_spec_witness :
    totalDuration [lesson3661] = "1h 1m" ∧ totalDuration [] = "0m" :=
  ⟨totalDuration_spec.2.2 lesson3661 rfl, totalDuration_spec.2.1⟩

/-- C7: the lesson count of a course equals the sum of the lengths of the
lesson arrays across its sections (and is zero for a course with no
sections), for both the detail-page and the listing-page derivations. -/
theorem lessonCount_spec :
    (∀ c : Course, lessonCount c = (c.sections.map fun s => s.lessons.length).sum) ∧
    (∀ c : Course, c.sections = [] → lessonCount c = 0) ∧
    (∀ c : ListingCourse,
      listingTotalLessons c = (c.sections.map fun s => s.lessons.length).sum) := by
  refine ⟨?_, ?_, ?_⟩
  · intro c
    unfold lessonCount
    rw [foldl_section_lessons]
    simp
  · intro c h
    simp [lessonCount, h]
  · intro c
    unfold listingTotalLessons
    rw [foldl_listing_lessons]
    simp

/-- C7 witness: the lesson-count theorem applied to the example course
with sections [A, B] and to the sectionless course. -/
theorem lessonCount_spec_witness :
    lessonCount courseAB = ((courseAB.sections.map fun s => s.lessons.length).sum) ∧
    lessonCount emptyCourse = 0 :=
  ⟨lessonCount_spec.1 courseAB, lessonCount_spec.2.1 emptyCourse rfl⟩

/-- C8: a failed fetch surfaces the collaborator's message when a
nonempty one is provided and the generic fallback otherwise, leaving
`courses` unchanged; a successful fetch clears the error. -/
theorem fetch_failure_success_spec :
    (∀ (st : FetchState) (m : Option String),
      (resolveFetch st (.failure m)).courses = st.courses ∧
      (∀ s, m = some s → s ≠ "" → (resolveFetch st (.failure m)).error = some s) ∧
      (m = none → (resolveFetch st (.failure m)).error = some archiveFallbackMessage)) ∧
    (∀ (st : FetchState) (cs : List ListingCourse),
      (resolveFetch st (.success cs)).error = none ∧
      (resolveFetch st (.success cs)).courses = cs) := by
  constructor
  · intro st m
    refine ⟨rfl, ?_, ?_⟩
    · intro s hm hne
      subst hm
      simp [resolveFetch, archiveErrorMessage, hne]
    · intro hm
      subst hm
      rfl
  · intro st cs
    exact ⟨rfl, rfl⟩

/-- C8 witness: the failure/success theorem applied to the initial hook
state with a provided message, a missing message, and a success. -/
theorem fetch_failure_success_spec_witness :
    (resolveFetch fetchStateStart (.failure (some "boom"))).courses
      = fetchStateStart.courses ∧
    (resolveFetch fetchStateStart (.failure (some "boom"))).error = some "boom" ∧
    (resolveFetch fetchStateStart (.failure none)).error = some archiveFallbackMessage ∧
    (resolveFetch fetchStateStart (.success goCourses)).error = none :=
  ⟨(fetch_failure_success_spec.1 fetchStateStart (some "boom")).1,
   (fetch_failure_success_spec.1 fetchStateStart (some "boom")).2.1 "boom" rfl (by decide),
   (fetch_failure_success_spec.1 fetchStateStart none).2.2 rfl,
   (fetch_failure_success_spec.2 fetchStateStart goCourses).1⟩

/-- C9: toggling a section id is a symmetric-difference update on the
expanded set — membership of the toggled id flips, every other id's
membership is unchanged, and toggling twice restores the original set. -/
theorem toggleSection_symmDiff (expanded : Finset String) (sectionId : String) :
    toggleSection sectionId (toggleSection sectionId expanded) = expanded ∧
    (sectionId ∈ toggleSection sectionId expanded ↔ sectionId ∉ expanded) ∧
    (∀ x, x ≠ sectionId → (x ∈ toggleSection sectionId expanded ↔ x ∈ expanded)) := by
  by_cases h : sectionId ∈ expanded
  · refine ⟨?_, ?_, ?_⟩
    · simp [toggleSection, h, Finset.insert_erase]
    · simp [toggleSection, h]
    · intro x hx
      simp [toggleSection, h, Finset.mem_erase, hx]
  · refine ⟨?_, ?_, ?_⟩
    · simp [toggleSection, h, Finset.erase_insert]
    · simp [toggleSection, h]
    · intro x hx
      simp [toggleSection, h, Finset.mem_insert, hx]

/-- C9 witness: the toggle theorem applied to the singleton expanded set
containing "A", with the unrelated id "B". -/
theorem toggleSection_symmDiff_witness :
    toggleSection "A" (toggleSection "A" ({"A"} : Finset String)) = {"A"} ∧
    (("B" : String) ∈ toggleSection "A" ({"A"} : Finset String) ↔
      ("B" : String) ∈ ({"A"} : Finset String)) :=
  ⟨(toggleSection_symmDiff {"A"} "A").1,
   (toggleSection_symmDiff {"A"} "A").2.2 "B" (by decide)⟩

/-- C10: grading is total over any recorded answer index — when the
recorded option index of a submitted question lies outside the quiz's
option list, the guarded indexing yields no option and the question
grades as incorrect rather than failing. -/
theorem grade_out_of_range_incorrect (quiz : Quiz) (st : QuizState) (q sel : Nat)
    (hsub : st.submitted q = true) (hans : st.answers q = some sel)
    (hlen : quiz.options.length ≤ sel) :
    gradeQuestion quiz st q = false := by
  have hnone : quiz.options[sel]? = none := by
    exact List.getElem?_eq_none hlen
  simp [gradeQuestion, hsub, hans, hnone]

/-- C10 witness: the totality theorem applied to a one-option quiz with
the out-of-range recorded index 5 submitted. -/
theorem grade_out_of_range_incorrect_witness :
    gradeQuestion oneOptionQuiz outOfRangeState 0 = false :=
  grade_out_of_range_incorrect oneOptionQuiz outOfRangeState 0 5
    (by decide) (by decide) (by decide)

end LMS
